import Mathlib

/-!
Verification of the readiness-polling engine (wait/host_port.go) and the
couchbase bootstrap orchestrator of this repository, as a shallow embedding.

Time is modelled by a discrete virtual clock (ticks ≈ milliseconds).  Every
blocking target operation observes the caller's deadline `d`: an operation
invoked at a virtual time `t ≥ d` returns the context's deadline error, and
an in-instance command execution that would complete after the deadline is
aborted at time `d`.  `time.Sleep` does not observe the context and always
advances the clock by the full poll interval.  Loops are written with
explicit fuel; a fuel of `d + 1` is proved sufficient whenever the poll
interval and the exec round-trip cost are positive.
-/

set_option linter.unusedVariables false

namespace HostPortWait

/-- System-error numbers distinguished by the dial-error classification of
`WaitUntilReady`. -/
inductive Errno
  | connRefused
  | other
deriving DecidableEq, Repr

/-- Modelled from the spec: `isConnRefusedErr` (wait/errs.go, which is not under
src/) recognizes a connection-refused system error. -/
def isConnRefusedErr : Errno → Bool
  | Errno.connRefused => true
  | Errno.other => false

/-- Outcome of one `dialer.DialContext` attempt, keeping the error structure
that the source inspects: a `*net.OpError` wrapping a `*os.SyscallError`
(`opSyscall`), or any other kind of dial error (`otherErr`). -/
inductive DialOutcome
  | ok
  | opSyscall (e : Errno)
  | otherErr
deriving DecidableEq, Repr

/-- Errors produced by the model of `HostPortStrategy.WaitUntilReady`.
`ctxDeadline` is the context's deadline error; `ctxWrapMapped` is the
`fmt.Errorf("%s:%w", ctx.Err(), err)` wrap of the mapped-port loop;
`execWrapped` is the `fmt.Errorf("%w, host port waiting failed", err)` wrap of
an exec error; `fuelOut` marks exhausted model fuel and is proved unreachable
under positive poll interval and exec cost. -/
inductive WErr
  | ctxDeadline
  | ctxWrapMapped
  | noPortToWaitFor
  | dialOp (e : Errno)
  | dialOther
  | execWrapped (e : WErr)
  | shNotExecutable
  | hostFailed (tag : Nat)
  | portsFailed (tag : Nat)
  | targetNotUsable (tag : Nat)
  | fuelOut
deriving DecidableEq, Repr

/-- An error derived from expiry of the caller's deadline (a timeout from the
caller's point of view). -/
def isDeadlineErr : WErr → Bool
  | WErr.ctxDeadline => true
  | WErr.ctxWrapMapped => true
  | WErr.execWrapped e => isDeadlineErr e
  | _ => false

/-- Behaviour of the external collaborators of one `WaitUntilReady` call:
the target (`Host`, `Ports`, `MappedPort`, `Exec`, liveness) and the network
(dial outcomes).  Call results are indexed by attempt number; `mappedRes k = ""`
models the k-th `MappedPort` call yielding no mapping yet; `execCost` is the
virtual duration of one in-instance exec round trip. -/
structure HPEnv where
  hostRes : Except WErr String
  portsRes : Nat → Except WErr (List String)
  mappedRes : Nat → String
  checkErr : Option WErr
  dialRes : Nat → DialOutcome
  execRes : Nat → Except WErr Nat
  execCost : Nat

/-- The `HostPortStrategy` record of wait/host_port.go: a logical port
(`""` means unspecified), an optional startup-timeout override, and a poll
interval. -/
structure HostPortStrategy where
  Port : String
  timeout : Option Nat
  PollInterval : Nat
deriving DecidableEq, Repr

/-- Modelled from the spec: the default startup timeout (60 time-units, here in
milliseconds; defined in wait/wait.go, which is not under src/). -/
def defaultStartupTimeout : Nat := 60000

/-- Modelled from the spec: the default poll interval (0.1 time-units, here in
milliseconds; defined in wait/wait.go, which is not under src/). -/
def defaultPollInterval : Nat := 100

/-- `NewHostPortStrategy` constructs a default host port strategy. -/
def NewHostPortStrategy (port : String) : HostPortStrategy :=
  { Port := port, timeout := none, PollInterval := defaultPollInterval }

/-- `ForListeningPort` is an alias for `NewHostPortStrategy`. -/
def ForListeningPort (port : String) : HostPortStrategy :=
  NewHostPortStrategy port

/-- `ForExposedPort` is an alias for `NewHostPortStrategy ""`. -/
def ForExposedPort : HostPortStrategy :=
  NewHostPortStrategy ""

/-- `WithStartupTimeout` changes the startup timeout. -/
def WithStartupTimeout (hp : HostPortStrategy) (t : Nat) : HostPortStrategy :=
  { hp with timeout := some t }

/-- `WithPollInterval` overrides the poll interval. -/
def WithPollInterval (hp : HostPortStrategy) (p : Nat) : HostPortStrategy :=
  { hp with PollInterval := p }

/-- The deadline used by `WaitUntilReady`: the override if set, else the
default startup timeout. -/
def resolvedTimeout (hp : HostPortStrategy) : Nat :=
  match hp.timeout with
  | some t => t
  | none => defaultStartupTimeout

/-- Modelled from the spec: `checkTarget` (wait/wait.go, not under src/) is the
liveness pre-flight run before each attempt; with an expired context its state
query fails with the context's deadline error. -/
def checkT (env : HPEnv) (d t : Nat) : Option WErr :=
  if d ≤ t then some WErr.ctxDeadline else env.checkErr

/-- Lines 85-103 of wait/host_port.go: resolve the logical port to probe.  If
the strategy's port is empty, `target.Ports` is consulted once and an arbitrary
(first) exposed port is taken; if none results, the `"no port to wait for"`
error is returned. -/
def resolveInternalPort (hp : HostPortStrategy) (env : HPEnv) : Except WErr String :=
  if hp.Port = "" then
    match env.portsRes 0 with
    | Except.error e => Except.error e
    | Except.ok ports =>
      match ports with
      | [] => Except.error WErr.noPortToWaitFor
      | q :: _ => if q = "" then Except.error WErr.noPortToWaitFor else Except.ok q
  else Except.ok hp.Port

/-- Lines 107-124 of wait/host_port.go: poll `target.MappedPort` for the chosen
port until it yields a mapping.  Each iteration selects between the context's
deadline (firing at absolute time `d`) and a `time.After` tick of one poll
interval; after the tick the liveness pre-flight runs and `MappedPort` is
retried.  Result: (mapping or error, completion time, sleep count). -/
def mappedLoop (env : HPEnv) (d p : Nat) : Nat → Nat → Nat → Except WErr String × Nat × Nat
  | 0, t, _ => (Except.error WErr.fuelOut, t, 0)
  | fuel + 1, t, k =>
    if d ≤ t + p then
      (Except.error WErr.ctxWrapMapped, d, 0)
    else
      match checkT env d (t + p) with
      | some e => (Except.error e, t + p, 1)
      | none =>
        if env.mappedRes k = "" then
          let r := mappedLoop env d p fuel (t + p) (k + 1)
          (r.1, r.2.1, r.2.2 + 1)
        else (Except.ok (env.mappedRes k), t + p, 1)

/-- Lines 130-152 of wait/host_port.go: the external check.  Before each dial
the liveness pre-flight runs; a dial error that is a `*net.OpError` wrapping a
`*os.SyscallError` with a connection-refused errno causes `time.Sleep` of one
poll interval and a retry; any other dial error is returned; a successful dial
closes the connection and exits the loop. -/
def extLoop (env : HPEnv) (d p : Nat) : Nat → Nat → Nat → Except WErr Unit × Nat × Nat
  | 0, t, _ => (Except.error WErr.fuelOut, t, 0)
  | fuel + 1, t, k =>
    match checkT env d t with
    | some e => (Except.error e, t, 0)
    | none =>
      match env.dialRes k with
      | DialOutcome.ok => (Except.ok (), t, 0)
      | DialOutcome.opSyscall e =>
        if isConnRefusedErr e then
          let r := extLoop env d p fuel (t + p) (k + 1)
          (r.1, r.2.1, r.2.2 + 1)
        else (Except.error (WErr.dialOp e), t, 0)
      | DialOutcome.otherErr => (Except.error WErr.dialOther, t, 0)

/-- Lines 154-173 of wait/host_port.go: the internal check.  Each iteration
first tests the context, then runs the liveness pre-flight, then executes the
composite shell probe inside the instance (virtual cost `execCost`, aborted at
the deadline).  Exit code 0 exits the loop; exit code 126 returns the
`"/bin/sh command not executable"` error; any other exit code loops again
immediately — the source contains no sleep here, so the sleep count of this
loop is always 0. -/
def intLoop (env : HPEnv) (d ce : Nat) : Nat → Nat → Nat → Except WErr Unit × Nat × Nat
  | 0, t, _ => (Except.error WErr.fuelOut, t, 0)
  | fuel + 1, t, k =>
    if d ≤ t then (Except.error WErr.ctxDeadline, t, 0)
    else
      match env.checkErr with
      | some e => (Except.error e, t, 0)
      | none =>
        if d ≤ t + ce then (Except.error (WErr.execWrapped WErr.ctxDeadline), d, 0)
        else
          match env.execRes k with
          | Except.error e => (Except.error (WErr.execWrapped e), t + ce, 0)
          | Except.ok code =>
            if code = 0 then (Except.ok (), t + ce, 0)
            else if code = 126 then (Except.error WErr.shNotExecutable, t + ce, 0)
            else intLoop env d ce fuel (t + ce) (k + 1)

/-- `HostPortStrategy.WaitUntilReady` (wait/host_port.go, lines 69-176) over
the virtual clock: resolve the host, resolve the logical port, obtain a port
mapping (polling if the first `MappedPort` call yields none), run the external
dial check, then the internal exec check.  Result: (success or error,
completion time, total sleep count). -/
def waitUntilReady (hp : HostPortStrategy) (env : HPEnv) : Except WErr Unit × Nat × Nat :=
  let d := resolvedTimeout hp
  let p := hp.PollInterval
  match env.hostRes with
  | Except.error e => (Except.error e, 0, 0)
  | Except.ok _ =>
    match resolveInternalPort hp env with
    | Except.error e => (Except.error e, 0, 0)
    | Except.ok _ =>
      let m :=
        if env.mappedRes 0 = "" then mappedLoop env d p (d + 1) 0 1
        else (Except.ok (env.mappedRes 0), 0, 0)
      match m.1 with
      | Except.error e => (Except.error e, m.2.1, m.2.2)
      | Except.ok _ =>
        let r2 := extLoop env d p (d + 1) m.2.1 0
        match r2.1 with
        | Except.error e => (Except.error e, r2.2.1, m.2.2 + r2.2.2)
        | Except.ok _ =>
          let r3 := intLoop env d env.execCost (d + 1) r2.2.1 0
          (r3.1, r3.2.1, m.2.2 + r2.2.2 + r3.2.2)

end HostPortWait

namespace Couchbase

/-- Modelled from the spec: the logical services of the couchbase module (the
`service` definitions live in a file that is not under src/); part_001 uses
them only through identifier equality (`contains`). -/
inductive Service
  | kv
  | query
  | search
  | index
  | analytics
  | eventing
deriving DecidableEq, Repr

/-- The `contains` helper of part_001: membership by identifier. -/
def contains : List Service → Service → Bool
  | [], _ => false
  | s :: rest, x => if s = x then true else contains rest x

/-- Modelled from the spec: the bucket resource definition (its struct lives in
a file not under src/); part_001 reads exactly these fields. -/
structure Bucket where
  name : String
  quota : Nat
  numReplicas : Nat
  flushEnabled : Bool
  queryPrimaryIndex : Bool
deriving DecidableEq, Repr

/-- Modelled from the spec: the cluster `Config` record (its struct lives in a
file not under src/); `isEnterprise` is discovered and written by
`initializeIsEnterprise`. -/
structure Config where
  enabledServices : List Service
  username : String
  password : String
  imageName : String
  isEnterprise : Bool
  buckets : List Bucket
deriving DecidableEq, Repr

/-- Management and service port constants of part_001. -/
def MGMT_PORT : String := "8091"

def MGMT_SSL_PORT : String := "18091"

def VIEW_PORT : String := "8092"

def VIEW_SSL_PORT : String := "18092"

def QUERY_PORT : String := "8093"

def QUERY_SSL_PORT : String := "18093"

def SEARCH_PORT : String := "8094"

def SEARCH_SSL_PORT : String := "18094"

def ANALYTICS_PORT : String := "8095"

def ANALYTICS_SSL_PORT : String := "18095"

def EVENTING_PORT : String := "8096"

def EVENTING_SSL_PORT : String := "18096"

def KV_PORT : String := "11210"

def KV_SSL_PORT : String := "11207"

/-- Errors of the bootstrap model.  `analyticsEnterprise` and
`eventingEnterprise` are the two configuration errors built by
`initializeIsEnterprise`; `primaryIndexIgnored` is the error built in
`createBuckets` when a primary index is requested without the query service;
`envErr` stands for an arbitrary collaborator error, carried unchanged. -/
inductive CbErr
  | analyticsEnterprise
  | eventingEnterprise
  | primaryIndexIgnored (name : String)
  | envErr (tag : Nat)
deriving DecidableEq, Repr

/-- The REST requests the orchestrator issues, at the granularity the claims
observe.  `setupAlternateAddresses` carries the body built by
`configureExternalPorts`. -/
inductive Req
  | getPools
  | renameNode (hostname : String)
  | setupServices (services : List Service)
  | setQuotas
  | setAdmin
  | setupAlternateAddresses (body : List (String × String))
  | setIndexes (storageMode : String)
  | createBucketReq (name : String)
  | primaryIndexReq (name : String)
deriving DecidableEq, Repr

/-- The sub-strategies of the all-services-healthy compound built by
`waitUntilAllNodesAreHealthy`. -/
inductive WStrategy
  | mgmtHealthy
  | queryPing
  | analyticsPing
  | eventingConfig
deriving DecidableEq, Repr

/-- Behaviour of the external collaborators of one bootstrap run: the container
runtime (`containerErr`, `cbHost`, `cbMapped`, `containerIP`), the product's
REST interface (`reqOutcome`, giving each request's outcome and, where the code
parses one, the boolean field it extracts), and the readiness probes
(`nodeOnlineRes`, `strategyRes`, `bucketReadyRes`).  `keyspaceFinal` and
`indexOnlineFinal` are the final outcomes of the two bounded-backoff
convergence checks (the backoff library is an external dependency). -/
structure CbEnv where
  containerErr : Option CbErr
  cbHost : Except CbErr String
  cbMapped : String → Except CbErr String
  containerIP : Except CbErr String
  reqOutcome : Req → Except CbErr Bool
  nodeOnlineRes : Option CbErr
  strategyRes : WStrategy → Option CbErr
  bucketReadyRes : String → Option CbErr
  keyspaceFinal : String → Option CbErr
  indexOnlineFinal : String → Option CbErr

/-- `doHttpRequest` of part_001: `getUrl` first resolves the host and the
mapped management port (either failure is propagated), then the request is
issued and its outcome returned. -/
def doHttp (env : CbEnv) (port : String) (r : Req) : Except CbErr Bool :=
  match env.cbHost with
  | Except.error e => Except.error e
  | Except.ok _ =>
    match env.cbMapped port with
    | Except.error e => Except.error e
    | Except.ok _ => env.reqOutcome r

/-- The step identities of the `clusterInitFunc` pipeline of `StartContainer`. -/
inductive StepId
  | waitUntilNodeIsOnline
  | initializeIsEnterprise
  | renameNode
  | initializeServices
  | setMemoryQuotas
  | configureAdminUser
  | configureExternalPorts
  | configureIndexer
  | waitUntilAllNodesAreHealthy
deriving DecidableEq, Repr

/-- `initializeIsEnterprise` of part_001: GET `/pools`, record the discovered
`isEnterprise` flag in the config, then reject analytics or eventing on a
non-enterprise edition. -/
def initializeIsEnterprise (cfg : Config) (env : CbEnv) : Option CbErr × Config × List Req :=
  match doHttp env MGMT_PORT Req.getPools with
  | Except.error e => (some e, cfg, [Req.getPools])
  | Except.ok isEnt =>
    let cfg2 := { cfg with isEnterprise := isEnt }
    if !isEnt && contains cfg2.enabledServices Service.analytics then
      (some CbErr.analyticsEnterprise, cfg2, [Req.getPools])
    else if !isEnt && contains cfg2.enabledServices Service.eventing then
      (some CbErr.eventingEnterprise, cfg2, [Req.getPools])
    else (none, cfg2, [Req.getPools])

/-- `renameNode` of part_001: resolve the internal IP address, then POST the
rename-node request. -/
def renameNode (cfg : Config) (env : CbEnv) : Option CbErr × Config × List Req :=
  match env.containerIP with
  | Except.error e => (some e, cfg, [])
  | Except.ok ip =>
    match doHttp env MGMT_PORT (Req.renameNode ip) with
    | Except.error e => (some e, cfg, [Req.renameNode ip])
    | Except.ok _ => (none, cfg, [Req.renameNode ip])

/-- `initializeServices` of part_001: POST the enabled-services setup request. -/
def initializeServices (cfg : Config) (env : CbEnv) : Option CbErr × Config × List Req :=
  match doHttp env MGMT_PORT (Req.setupServices cfg.enabledServices) with
  | Except.error e => (some e, cfg, [Req.setupServices cfg.enabledServices])
  | Except.ok _ => (none, cfg, [Req.setupServices cfg.enabledServices])

/-- `setMemoryQuotas` of part_001: POST the per-service quota body. -/
def setMemoryQuotas (cfg : Config) (env : CbEnv) : Option CbErr × Config × List Req :=
  match doHttp env MGMT_PORT Req.setQuotas with
  | Except.error e => (some e, cfg, [Req.setQuotas])
  | Except.ok _ => (none, cfg, [Req.setQuotas])

/-- `configureAdminUser` of part_001: POST the admin-credentials body. -/
def configureAdminUser (cfg : Config) (env : CbEnv) : Option CbErr × Config × List Req :=
  match doHttp env MGMT_PORT Req.setAdmin with
  | Except.error e => (some e, cfg, [Req.setAdmin])
  | Except.ok _ => (none, cfg, [Req.setAdmin])

/-- The value of an `_`-discarded resolution: the Go zero value (an empty
string) when the call failed. -/
def orEmpty : Except CbErr String → String
  | Except.ok s => s
  | Except.error _ => ""

/-- The alternate-addresses body built by `configureExternalPorts` of part_001:
every host and mapped-port resolution discards its error (`host, _ := ...`),
leaving an empty field on failure. -/
def externalBody (cfg : Config) (env : CbEnv) : List (String × String) :=
  [("hostname", orEmpty env.cbHost),
   ("mgmt", orEmpty (env.cbMapped MGMT_PORT)),
   ("mgmtSSL", orEmpty (env.cbMapped MGMT_SSL_PORT))]
  ++ (if contains cfg.enabledServices Service.kv then
        [("kv", orEmpty (env.cbMapped KV_PORT)),
         ("kvSSL", orEmpty (env.cbMapped KV_SSL_PORT)),
         ("capi", orEmpty (env.cbMapped VIEW_PORT)),
         ("capiSSL", orEmpty (env.cbMapped VIEW_SSL_PORT))]
      else [])
  ++ (if contains cfg.enabledServices Service.query then
        [("n1ql", orEmpty (env.cbMapped QUERY_PORT)),
         ("n1qlSSL", orEmpty (env.cbMapped QUERY_SSL_PORT))]
      else [])
  ++ (if contains cfg.enabledServices Service.search then
        [("fts", orEmpty (env.cbMapped SEARCH_PORT)),
         ("ftsSSL", orEmpty (env.cbMapped SEARCH_SSL_PORT))]
      else [])
  ++ (if contains cfg.enabledServices Service.analytics then
        [("cbas", orEmpty (env.cbMapped ANALYTICS_PORT)),
         ("cbasSSL", orEmpty (env.cbMapped ANALYTICS_SSL_PORT))]
      else [])
  ++ (if contains cfg.enabledServices Service.eventing then
        [("eventingAdminPort", orEmpty (env.cbMapped EVENTING_PORT)),
         ("eventingSSL", orEmpty (env.cbMapped EVENTING_SSL_PORT))]
      else [])

/-- `configureExternalPorts` of part_001: build the body (discarding all
resolution errors) and PUT it; only the outcome of the PUT itself (which
internally re-resolves the host and management mapped port) is returned. -/
def configureExternalPorts (cfg : Config) (env : CbEnv) : Option CbErr × Config × List Req :=
  let body := externalBody cfg env
  match doHttp env MGMT_PORT (Req.setupAlternateAddresses body) with
  | Except.error e => (some e, cfg, [Req.setupAlternateAddresses body])
  | Except.ok _ => (none, cfg, [Req.setupAlternateAddresses body])

/-- `configureIndexer` of part_001: POST the storage mode, which depends on the
discovered edition flag. -/
def configureIndexer (cfg : Config) (env : CbEnv) : Option CbErr × Config × List Req :=
  let storageMode := if cfg.isEnterprise then "memory_optimized" else "forestdb"
  match doHttp env MGMT_PORT (Req.setIndexes storageMode) with
  | Except.error e => (some e, cfg, [Req.setIndexes storageMode])
  | Except.ok _ => (none, cfg, [Req.setIndexes storageMode])

/-- The ordered sub-strategy list built by `waitUntilAllNodesAreHealthy` of
part_001: the management health probe always, then one probe per enabled
query / analytics / eventing service. -/
def healthStrategies (cfg : Config) : List WStrategy :=
  [WStrategy.mgmtHealthy]
  ++ (if contains cfg.enabledServices Service.query then [WStrategy.queryPing] else [])
  ++ (if contains cfg.enabledServices Service.analytics then [WStrategy.analyticsPing] else [])
  ++ (if contains cfg.enabledServices Service.eventing then [WStrategy.eventingConfig] else [])

/-- Modelled from the spec: `wait.ForAll` (the Compound Strategy; its file is
not under src/) evaluates its sub-strategies sequentially in listed order and
aborts at the first failure with that sub-strategy's error.  Result: (outcome,
list of the sub-strategies actually evaluated). -/
def forAll (env : CbEnv) : List WStrategy → Option CbErr × List WStrategy
  | [] => (none, [])
  | s :: rest =>
    match env.strategyRes s with
    | some e => (some e, [s])
    | none =>
      let r := forAll env rest
      (r.1, s :: r.2)

/-- `waitUntilAllNodesAreHealthy` of part_001: run the dynamically built
compound. -/
def waitUntilAllNodesAreHealthy (cfg : Config) (env : CbEnv) : Option CbErr × Config × List Req :=
  ((forAll env (healthStrategies cfg)).1, cfg, [])

/-- `waitUntilNodeIsOnline` of part_001: an HTTP readiness probe of `/pools`;
its outcome is collaborator-supplied. -/
def waitUntilNodeIsOnline (cfg : Config) (env : CbEnv) : Option CbErr × Config × List Req :=
  (env.nodeOnlineRes, cfg, [])

/-- Dispatch one pipeline step to its definition. -/
def runStep (env : CbEnv) (s : StepId) (cfg : Config) : Option CbErr × Config × List Req :=
  match s with
  | StepId.waitUntilNodeIsOnline => waitUntilNodeIsOnline cfg env
  | StepId.initializeIsEnterprise => initializeIsEnterprise cfg env
  | StepId.renameNode => renameNode cfg env
  | StepId.initializeServices => initializeServices cfg env
  | StepId.setMemoryQuotas => setMemoryQuotas cfg env
  | StepId.configureAdminUser => configureAdminUser cfg env
  | StepId.configureExternalPorts => configureExternalPorts cfg env
  | StepId.configureIndexer => configureIndexer cfg env
  | StepId.waitUntilAllNodesAreHealthy => waitUntilAllNodesAreHealthy cfg env

/-- The `for _, fn := range clusterInitFunc` loop of `StartContainer`: run the
steps in order, aborting at the first failure with that step's error.  Result:
(outcome, final config, step identities invoked, requests issued). -/
def runPipeline (env : CbEnv) : List StepId → Config → Option CbErr × Config × List StepId × List Req
  | [], cfg => (none, cfg, [], [])
  | s :: rest, cfg =>
    let r := runStep env s cfg
    match r.1 with
    | some e => (some e, r.2.1, [s], r.2.2)
    | none =>
      let rp := runPipeline env rest r.2.1
      (rp.1, rp.2.1, s :: rp.2.2.1, r.2.2 ++ rp.2.2.2)

/-- The `clusterInitFunc` list of `StartContainer` (part_001, lines 106-120):
the fixed prefix, `configureIndexer` only when the index service is enabled,
then the all-services-healthy compound. -/
def startContainerSteps (cfg : Config) : List StepId :=
  [StepId.waitUntilNodeIsOnline, StepId.initializeIsEnterprise, StepId.renameNode,
   StepId.initializeServices, StepId.setMemoryQuotas, StepId.configureAdminUser,
   StepId.configureExternalPorts]
  ++ (if contains cfg.enabledServices Service.index then [StepId.configureIndexer] else [])
  ++ [StepId.waitUntilAllNodesAreHealthy]

/-- `createBucket` of part_001: POST the bucket-creation request. -/
def createBucket (env : CbEnv) (b : Bucket) : Option CbErr :=
  match doHttp env MGMT_PORT (Req.createBucketReq b.name) with
  | Except.error e => some e
  | Except.ok _ => none

/-- One iteration of the `createBuckets` loop of part_001 for one bucket:
create it, wait for full propagation, check the query keyspace when the query
service is enabled, and handle the primary-index requirement — rejecting it
when the query service is absent, otherwise creating the index and waiting for
it to come online. -/
def runBucket (cfg : Config) (env : CbEnv) (b : Bucket) : Option CbErr × List Req :=
  match createBucket env b with
  | some e => (some e, [Req.createBucketReq b.name])
  | none =>
    match env.bucketReadyRes b.name with
    | some e => (some e, [Req.createBucketReq b.name])
    | none =>
      match (if contains cfg.enabledServices Service.query then env.keyspaceFinal b.name else none) with
      | some e => (some e, [Req.createBucketReq b.name])
      | none =>
        if b.queryPrimaryIndex then
          if !contains cfg.enabledServices Service.query then
            (some (CbErr.primaryIndexIgnored b.name), [Req.createBucketReq b.name])
          else
            match doHttp env QUERY_PORT (Req.primaryIndexReq b.name) with
            | Except.error e => (some e, [Req.createBucketReq b.name, Req.primaryIndexReq b.name])
            | Except.ok _ =>
              match env.indexOnlineFinal b.name with
              | some e => (some e, [Req.createBucketReq b.name, Req.primaryIndexReq b.name])
              | none => (none, [Req.createBucketReq b.name, Req.primaryIndexReq b.name])
        else (none, [Req.createBucketReq b.name])

/-- `createBuckets` of part_001: process the declared buckets in configuration
order, aborting at the first failure with that failure's error. -/
def createBuckets (cfg : Config) (env : CbEnv) : List Bucket → Option CbErr × List Req
  | [] => (none, [])
  | b :: rest =>
    let rb := runBucket cfg env b
    match rb.1 with
    | some e => (some e, rb.2)
    | none =>
      let r := createBuckets cfg env rest
      (r.1, rb.2 ++ r.2)

/-- `StartContainer` of part_001: create the container, run the pipeline steps
in order, then provision the declared buckets.  Result: (outcome, step
identities invoked, requests issued). -/
def startContainer (cfg : Config) (env : CbEnv) : Option CbErr × List StepId × List Req :=
  match env.containerErr with
  | some e => (some e, [], [])
  | none =>
    let rp := runPipeline env (startContainerSteps cfg) cfg
    match rp.1 with
    | some e => (some e, rp.2.2.1, rp.2.2.2)
    | none =>
      let r := createBuckets rp.2.1 env rp.2.1.buckets
      (r.1, rp.2.2.1, rp.2.2.2 ++ r.2)

end Couchbase

namespace HostPortWait

/-- An empty-port strategy with a 10-tick deadline and a 1-tick poll interval. -/
def hpC1 : HostPortStrategy :=
  { Port := "", timeout := some 10, PollInterval := 1 }

/-- A target whose exposed-ports lookup is empty exactly at the first call and
non-empty from the second call on. -/
def envC1 : HPEnv :=
  { hostRes := Except.ok "localhost",
    portsRes := fun n => if n = 0 then Except.ok [] else Except.ok ["8091/tcp"],
    mappedRes := fun _ => "",
    checkErr := none,
    dialRes := fun _ => DialOutcome.ok,
    execRes := fun _ => Except.ok 0,
    execCost := 1 }

/-- A target whose exposed-ports lookup always yields one port and that is
immediately ready. -/
def envC1b : HPEnv :=
  { hostRes := Except.ok "localhost",
    portsRes := fun _ => Except.ok ["8091/tcp"],
    mappedRes := fun _ => "8091/tcp",
    checkErr := none,
    dialRes := fun _ => DialOutcome.ok,
    execRes := fun _ => Except.ok 0,
    execCost := 1 }

/-- An explicit-port strategy with a 1000-tick deadline and a 100-tick poll
interval. -/
def hpC2 : HostPortStrategy :=
  { Port := "8091/tcp", timeout := some 1000, PollInterval := 100 }

/-- A target that is reachable at once externally and whose internal probe
exits non-zero on the first two attempts, then zero; each exec takes 1 tick. -/
def envC2 : HPEnv :=
  { hostRes := Except.ok "localhost",
    portsRes := fun _ => Except.ok [],
    mappedRes := fun _ => "8091/tcp",
    checkErr := none,
    dialRes := fun _ => DialOutcome.ok,
    execRes := fun k => if k < 2 then Except.ok 1 else Except.ok 0,
    execCost := 1 }

/-- A target whose first dial attempt is refused and whose second succeeds. -/
def envC3 : HPEnv :=
  { hostRes := Except.ok "localhost",
    portsRes := fun _ => Except.ok [],
    mappedRes := fun _ => "8091/tcp",
    checkErr := none,
    dialRes := fun k => if k = 0 then DialOutcome.opSyscall Errno.connRefused else DialOutcome.ok,
    execRes := fun _ => Except.ok 0,
    execCost := 1 }

/-- An explicit-port strategy with a 3-tick deadline and a 1-tick poll
interval. -/
def hpC9 : HostPortStrategy :=
  { Port := "8091/tcp", timeout := some 3, PollInterval := 1 }

/-- A target every dial attempt against which is refused: its success condition
never holds. -/
def envC9 : HPEnv :=
  { hostRes := Except.ok "localhost",
    portsRes := fun _ => Except.ok [],
    mappedRes := fun _ => "8091/tcp",
    checkErr := none,
    dialRes := fun _ => DialOutcome.opSyscall Errno.connRefused,
    execRes := fun _ => Except.ok 1,
    execCost := 1 }

end HostPortWait

namespace Couchbase

/-- The default configuration of `StartContainer` (part_001, lines 80-85). -/
def cfgB : Config :=
  { enabledServices := [Service.kv, Service.query, Service.search, Service.index],
    username := "Administrator",
    password := "password",
    imageName := "couchbase:6.5.1",
    isEnterprise := false,
    buckets := [] }

/-- A collaborator environment in which every call succeeds. -/
def envB : CbEnv :=
  { containerErr := none,
    cbHost := Except.ok "localhost",
    cbMapped := fun _ => Except.ok "32768",
    containerIP := Except.ok "172.17.0.2",
    reqOutcome := fun _ => Except.ok true,
    nodeOnlineRes := none,
    strategyRes := fun _ => none,
    bucketReadyRes := fun _ => none,
    keyspaceFinal := fun _ => none,
    indexOnlineFinal := fun _ => none }

/-- An environment in which exactly the rename-node request fails. -/
def envC4 : CbEnv :=
  { envB with
    reqOutcome := fun r =>
      match r with
      | Req.renameNode _ => Except.error (CbErr.envErr 1)
      | _ => Except.ok true }

/-- An environment in which the SSL management mapped-port lookup fails while
everything else succeeds. -/
def envC5 : CbEnv :=
  { envB with
    cbMapped := fun q =>
      if q = MGMT_SSL_PORT then Except.error (CbErr.envErr 7) else Except.ok "32768" }

/-- Two declared buckets. -/
def b1C6 : Bucket :=
  { name := "b1", quota := 100, numReplicas := 0, flushEnabled := false, queryPrimaryIndex := false }

/-- The bucket declared after `b1`. -/
def b2C6 : Bucket :=
  { name := "b2", quota := 100, numReplicas := 0, flushEnabled := false, queryPrimaryIndex := false }

/-- The default configuration with buckets `b1` then `b2`. -/
def cfgC6 : Config :=
  { cfgB with buckets := [b1C6, b2C6] }

/-- An environment in which `b1`'s readiness probe fails with a timeout-style
error while everything else succeeds. -/
def envC6 : CbEnv :=
  { envB with
    bucketReadyRes := fun nm => if nm = "b1" then some (CbErr.envErr 9) else none }

/-- The successful pipeline run preceding bucket creation for `cfgC6`. -/
def pipeC6 : Option CbErr × Config × List StepId × List Req :=
  runPipeline envC6 (startContainerSteps cfgC6) cfgC6

/-- A configuration enabling the analytics service. -/
def cfgC7 : Config :=
  { cfgB with enabledServices := [Service.kv, Service.analytics] }

/-- An environment whose discovered edition flag is non-enterprise. -/
def envC7 : CbEnv :=
  { envB with
    reqOutcome := fun r =>
      match r with
      | Req.getPools => Except.ok false
      | _ => Except.ok true }

/-- An environment in which the analytics health probe fails while the others
succeed. -/
def envC8 : CbEnv :=
  { envB with
    strategyRes := fun s =>
      match s with
      | WStrategy.analyticsPing => some (CbErr.envErr 3)
      | _ => none }

/-- A bucket that requires a primary index. -/
def bPIC10 : Bucket :=
  { name := "b1", quota := 100, numReplicas := 0, flushEnabled := false, queryPrimaryIndex := true }

/-- A configuration without the query service but with a bucket requiring a
primary index. -/
def cfgC10 : Config :=
  { enabledServices := [Service.kv, Service.search, Service.index],
    username := "Administrator",
    password := "password",
    imageName := "couchbase:6.5.1",
    isEnterprise := false,
    buckets := [bPIC10] }

/-- The successful pipeline run preceding bucket creation for `cfgC10`. -/
def pipeC10 : Option CbErr × Config × List StepId × List Req :=
  runPipeline envB (startContainerSteps cfgC10) cfgC10

end Couchbase

namespace HostPortWait

/-- With a live target and a positive poll interval, the mapped-port loop
either finds a mapping strictly before the deadline or returns the wrapped
context error exactly at the deadline. -/
theorem mappedLoop_spec (env : HPEnv) (d p : Nat) (hck : env.checkErr = none) (hp1 : 1 ≤ p) :
    ∀ fuel t k, t < d → d - t < fuel →
      (∃ q t2 s, q ≠ "" ∧ mappedLoop env d p fuel t k = (Except.ok q, t2, s) ∧ t2 < d) ∨
      (∃ s, mappedLoop env d p fuel t k = (Except.error WErr.ctxWrapMapped, d, s)) := by
  intro fuel
  induction fuel with
  | zero => intro t k ht hf; omega
  | succ n ih =>
    intro t k ht hf
    by_cases hdp : d ≤ t + p
    · right
      exact ⟨0, by simp [mappedLoop, hdp]⟩
    · have hchk : checkT env d (t + p) = none := by
        unfold checkT
        rw [if_neg (by omega)]
        exact hck
      by_cases hm : env.mappedRes k = ""
      · rcases ih (t + p) (k + 1) (by omega) (by omega) with
          ⟨q, t2, s, hq, heq, ht2⟩ | ⟨s, heq⟩
        · left
          exact ⟨q, t2, s + 1, hq, by simp [mappedLoop, hdp, hchk, hm, heq], ht2⟩
        · right
          exact ⟨s + 1, by simp [mappedLoop, hdp, hchk, hm, heq]⟩
      · left
        exact ⟨env.mappedRes k, t + p, 1, hm, by simp [mappedLoop, hdp, hchk, hm], by omega⟩

/-- With a live target, a positive poll interval, and every dial attempt
either succeeding or refused, the external loop either succeeds strictly
before the deadline or returns the context's deadline error at a time in
`[d, d + p)`. -/
theorem extLoop_spec (env : HPEnv) (d p : Nat) (hck : env.checkErr = none) (hp1 : 1 ≤ p)
    (hdial : ∀ k, env.dialRes k = DialOutcome.ok ∨
      env.dialRes k = DialOutcome.opSyscall Errno.connRefused) :
    ∀ fuel t k, t < d + p → d - t < fuel →
      (∃ t2 s, extLoop env d p fuel t k = (Except.ok (), t2, s) ∧ t2 < d) ∨
      (∃ t2 s, extLoop env d p fuel t k = (Except.error WErr.ctxDeadline, t2, s) ∧
        d ≤ t2 ∧ t2 < d + p) := by
  intro fuel
  induction fuel with
  | zero => intro t k ht hf; omega
  | succ n ih =>
    intro t k ht hf
    by_cases hdt : d ≤ t
    · right
      refine ⟨t, 0, ?_, hdt, ht⟩
      have hchk : checkT env d t = some WErr.ctxDeadline := by
        unfold checkT
        rw [if_pos hdt]
      simp [extLoop, hchk]
    · have hchk : checkT env d t = none := by
        unfold checkT
        rw [if_neg hdt]
        exact hck
      rcases hdial k with hok | href
      · left
        exact ⟨t, 0, by simp [extLoop, hchk, hok], by omega⟩
      · rcases ih (t + p) (k + 1) (by omega) (by omega) with
          ⟨t2, s, heq, ht2⟩ | ⟨t2, s, heq, hd2, hlt2⟩
        · left
          exact ⟨t2, s + 1, by simp [extLoop, hchk, href, isConnRefusedErr, heq], ht2⟩
        · right
          exact ⟨t2, s + 1, by simp [extLoop, hchk, href, isConnRefusedErr, heq], hd2, hlt2⟩

/-- The external loop never returns the structured connection-refused dial
error itself (with a live target): refusals are always retried, and after the
deadline the context error is returned instead. -/
theorem extLoop_no_refused (env : HPEnv) (d p : Nat) (hck : env.checkErr = none) :
    ∀ fuel t k e t2 s, extLoop env d p fuel t k = (Except.error e, t2, s) →
      e ≠ WErr.dialOp Errno.connRefused := by
  intro fuel
  induction fuel with
  | zero =>
    intro t k e t2 s heq
    simp [extLoop] at heq
    simp [heq.1.symm]
  | succ n ih =>
    intro t k e t2 s heq
    by_cases hdt : d ≤ t
    · have hchk : checkT env d t = some WErr.ctxDeadline := by
        unfold checkT
        rw [if_pos hdt]
      simp [extLoop, hchk] at heq
      simp [heq.1.symm]
    · have hchk : checkT env d t = none := by
        unfold checkT
        rw [if_neg hdt]
        exact hck
      cases hd : env.dialRes k with
      | ok => simp [extLoop, hchk, hd] at heq
      | opSyscall e2 =>
        cases e2 with
        | connRefused =>
          simp [extLoop, hchk, hd, isConnRefusedErr] at heq
          exact ih (t + p) (k + 1) e (extLoop env d p n (t + p) (k + 1)).2.1
            (extLoop env d p n (t + p) (k + 1)).2.2 (by
              rcases heq with ⟨h1, h2, h3⟩
              rw [← h1])
        | other =>
          simp [extLoop, hchk, hd, isConnRefusedErr] at heq
          simp [heq.1.symm]
      | otherErr =>
        simp [extLoop, hchk, hd] at heq
        simp [heq.1.symm]

/-- With a live target, a positive exec cost, and every exec attempt returning
a non-zero, non-126 exit code, the internal loop started before the deadline
returns the wrapped context error exactly at the deadline. -/
theorem intLoop_timeout (env : HPEnv) (d ce : Nat) (hck : env.checkErr = none) (hce : 1 ≤ ce)
    (hexec : ∀ k, ∃ c, env.execRes k = Except.ok c ∧ c ≠ 0 ∧ c ≠ 126) :
    ∀ fuel t k, t < d → d - t < fuel →
      intLoop env d ce fuel t k = (Except.error (WErr.execWrapped WErr.ctxDeadline), d, 0) := by
  intro fuel
  induction fuel with
  | zero => intro t k ht hf; omega
  | succ n ih =>
    intro t k ht hf
    have hdt : ¬ d ≤ t := by omega
    by_cases hdc : d ≤ t + ce
    · simp [intLoop, hdt, hck, hdc]
    · rcases hexec k with ⟨c, hc, h0, h126⟩
      have : intLoop env d ce (n + 1) t k = intLoop env d ce n (t + ce) (k + 1) := by
        simp [intLoop, hdt, hck, hdc, hc, h0, h126]
      rw [this]
      exact ih (t + ce) (k + 1) (by omega) (by omega)

/-- The internal loop performs no poll-interval sleeps: its sleep count is
always zero (the source loop contains no `time.Sleep`). -/
theorem intLoop_no_sleep (env : HPEnv) (d ce : Nat) :
    ∀ fuel t k, (intLoop env d ce fuel t k).2.2 = 0 := by
  intro fuel
  induction fuel with
  | zero => intro t k; rfl
  | succ n ih =>
    intro t k
    by_cases h1 : d ≤ t
    · simp [intLoop, h1]
    · cases hck : env.checkErr with
      | some e => simp [intLoop, h1, hck]
      | none =>
        by_cases h2 : d ≤ t + ce
        · simp [intLoop, h1, h2, hck]
        · cases hex : env.execRes k with
          | error e => simp [intLoop, h1, h2, hck, hex]
          | ok code =>
            by_cases hc0 : code = 0
            · simp [intLoop, h1, h2, hck, hex, hc0]
            · by_cases hc126 : code = 126
              · simp [intLoop, h1, h2, hck, hex, hc0, hc126]
              · simp [intLoop, h1, h2, hck, hex, hc0, hc126, ih]

/-- C1 (counterexample): with an empty port, a target whose exposed-ports
lookup is empty at the first call but non-empty at the second ("momentarily
empty") makes `WaitUntilReady` fail immediately with the no-port error instead
of polling the lookup. -/
theorem hostPort_arbitraryPort_cex :
    waitUntilReady hpC1 envC1 = (Except.error WErr.noPortToWaitFor, 0, 0) ∧
    envC1.portsRes 1 = Except.ok ["8091/tcp"] := by
  exact ⟨rfl, rfl⟩

/-- C1 (amended): with an empty port, `WaitUntilReady` queries the
exposed-ports lookup exactly once: an error or an empty result from that
single lookup is returned immediately (as the no-port error in the empty
case), and otherwise an arbitrary (first) exposed port is picked and the
strategy behaves exactly as if that port had been given explicitly. -/
theorem hostPort_arbitraryPort_amended (hp : HostPortStrategy) (env : HPEnv) (a : String)
    (hport : hp.Port = "") (ha : env.hostRes = Except.ok a) :
    (env.portsRes 0 = Except.ok [] →
      waitUntilReady hp env = (Except.error WErr.noPortToWaitFor, 0, 0))
    ∧ (∀ e, env.portsRes 0 = Except.error e →
      waitUntilReady hp env = (Except.error e, 0, 0))
    ∧ (∀ q l, env.portsRes 0 = Except.ok (q :: l) → q ≠ "" →
      waitUntilReady hp env = waitUntilReady { hp with Port := q } env) := by
  refine ⟨?_, ?_, ?_⟩
  · intro h
    have hres : resolveInternalPort hp env = Except.error WErr.noPortToWaitFor := by
      unfold resolveInternalPort
      rw [if_pos hport, h]
    simp [waitUntilReady, ha, hres]
  · intro e h
    have hres : resolveInternalPort hp env = Except.error e := by
      unfold resolveInternalPort
      rw [if_pos hport, h]
    simp [waitUntilReady, ha, hres]
  · intro q l h hq
    have hres : resolveInternalPort hp env = Except.ok q := by
      unfold resolveInternalPort
      rw [if_pos hport, h]
      simp [hq]
    have hres2 : resolveInternalPort { hp with Port := q } env = Except.ok q := by
      unfold resolveInternalPort
      rw [if_neg hq]
    simp [waitUntilReady, ha, hres, hres2, resolvedTimeout]

/-- C1 (witness): the amended behaviour at a concrete strategy and target. -/
theorem hostPort_arbitraryPort_amended_witness :
    hpC1.Port = "" ∧ envC1b.portsRes 0 = Except.ok ["8091/tcp"] ∧
    waitUntilReady hpC1 envC1b = waitUntilReady { hpC1 with Port := "8091/tcp" } envC1b := by
  exact ⟨rfl, rfl,
    (hostPort_arbitraryPort_amended hpC1 envC1b "localhost" rfl rfl).2.2 "8091/tcp" [] rfl
      (by decide)⟩

/-- C2 (counterexample): with poll interval 100 and exec cost 1, a target
whose internal probe exits non-zero on attempts 0 and 1 and zero on attempt 2
succeeds at virtual time 3 with zero sleeps: the two retries happened without
any poll-interval sleep (completion is even faster than a single poll
interval), contradicting the claim's "retry after sleeping one poll
interval". -/
theorem hostPort_internalExit_cex :
    waitUntilReady hpC2 envC2 = (Except.ok (), 3, 0) ∧
    envC2.execRes 0 = Except.ok 1 ∧ envC2.execRes 1 = Except.ok 1 ∧
    (3 : Nat) < hpC2.PollInterval := by
  exact ⟨rfl, rfl, rfl, by decide⟩

/-- C2 (amended): in the internal check, exit code 0 ends the wait with
success; exit code 126 immediately returns the non-retryable error even when
deadline remains; any other non-zero exit code causes an immediate retry with
no intervening sleep — the loop's sleep count is always zero and time advances
only by the exec round-trip itself. -/
theorem hostPort_internalExit_amended (env : HPEnv) (d ce fuel t k : Nat)
    (hck : env.checkErr = none) (ht : t < d) (htc : t + ce < d) :
    (env.execRes k = Except.ok 0 →
      intLoop env d ce (fuel + 1) t k = (Except.ok (), t + ce, 0))
    ∧ (env.execRes k = Except.ok 126 →
      intLoop env d ce (fuel + 1) t k = (Except.error WErr.shNotExecutable, t + ce, 0))
    ∧ (∀ c, env.execRes k = Except.ok c → c ≠ 0 → c ≠ 126 →
      intLoop env d ce (fuel + 1) t k = intLoop env d ce fuel (t + ce) (k + 1))
    ∧ (∀ f t0 k0, (intLoop env d ce f t0 k0).2.2 = 0) := by
  have h1 : ¬ d ≤ t := by omega
  have h2 : ¬ d ≤ t + ce := by omega
  refine ⟨?_, ?_, ?_, intLoop_no_sleep env d ce⟩
  · intro h
    simp [intLoop, h1, h2, hck, h]
  · intro h
    simp [intLoop, h1, h2, hck, h]
  · intro c h h0 h126
    simp [intLoop, h1, h2, hck, h, h0, h126]

/-- C2 (witness): the amended step behaviour at a concrete target. -/
theorem hostPort_internalExit_amended_witness :
    (0 : Nat) < 1000 ∧ (0 + 1 : Nat) < 1000 ∧
    intLoop envC2 1000 1 5 0 0 = intLoop envC2 1000 1 4 1 1 := by
  exact ⟨by decide, by decide,
    (hostPort_internalExit_amended envC2 1000 1 4 0 0 rfl (by decide) (by decide)).2.2.1 1 rfl
      (by decide) (by decide)⟩

/-- C3: in the external check, a structured connection-refused dial error
causes a poll-interval sleep and a retry and is never itself surfaced to the
caller; any other dial error is returned immediately without retry; a
successful dial exits the loop, after which `WaitUntilReady` proceeds to the
internal check. -/
theorem hostPort_externalDial_errors (env : HPEnv) (d p fuel t k : Nat)
    (hck : env.checkErr = none) (ht : t < d) :
    (env.dialRes k = DialOutcome.opSyscall Errno.connRefused →
      extLoop env d p (fuel + 1) t k =
        ((extLoop env d p fuel (t + p) (k + 1)).1,
         (extLoop env d p fuel (t + p) (k + 1)).2.1,
         (extLoop env d p fuel (t + p) (k + 1)).2.2 + 1))
    ∧ (∀ e, e ≠ Errno.connRefused → env.dialRes k = DialOutcome.opSyscall e →
      extLoop env d p (fuel + 1) t k = (Except.error (WErr.dialOp e), t, 0))
    ∧ (env.dialRes k = DialOutcome.otherErr →
      extLoop env d p (fuel + 1) t k = (Except.error WErr.dialOther, t, 0))
    ∧ (∀ f t0 k0 e t2 s, extLoop env d p f t0 k0 = (Except.error e, t2, s) →
      e ≠ WErr.dialOp Errno.connRefused)
    ∧ (env.dialRes k = DialOutcome.ok → extLoop env d p (fuel + 1) t k = (Except.ok (), t, 0))
    ∧ (∀ (hp : HostPortStrategy) (a : String), hp.Port ≠ "" → env.hostRes = Except.ok a →
      env.mappedRes 0 ≠ "" → env.dialRes 0 = DialOutcome.ok → 0 < resolvedTimeout hp →
      waitUntilReady hp env =
        intLoop env (resolvedTimeout hp) env.execCost (resolvedTimeout hp + 1) 0 0) := by
  have hchk : checkT env d t = none := by
    unfold checkT
    rw [if_neg (by omega)]
    exact hck
  refine ⟨?_, ?_, ?_, extLoop_no_refused env d p hck, ?_, ?_⟩
  · intro h
    simp [extLoop, hchk, h, isConnRefusedErr]
  · intro e he h
    have hce : isConnRefusedErr e = false := by
      cases e
      · exact absurd rfl he
      · rfl
    simp [extLoop, hchk, h, hce]
  · intro h
    simp [extLoop, hchk, h]
  · intro h
    simp [extLoop, hchk, h]
  · intro hp a hport ha hm hd0 hdpos
    have hres : resolveInternalPort hp env = Except.ok hp.Port := by
      unfold resolveInternalPort
      rw [if_neg hport]
    have hchk0 : checkT env (resolvedTimeout hp) 0 = none := by
      unfold checkT
      rw [if_neg (by omega)]
      exact hck
    have hext : extLoop env (resolvedTimeout hp) hp.PollInterval (resolvedTimeout hp + 1) 0 0 =
        (Except.ok (), 0, 0) := by
      simp [extLoop, hchk0, hd0]
    simp [waitUntilReady, ha, hres, hm, hext]

/-- C3 (witness): the refused-then-retry step at a concrete target. -/
theorem hostPort_externalDial_errors_witness :
    envC3.checkErr = none ∧ (0 : Nat) < 1000 ∧
    extLoop envC3 1000 100 6 0 0 =
      ((extLoop envC3 1000 100 5 100 1).1, (extLoop envC3 1000 100 5 100 1).2.1,
       (extLoop envC3 1000 100 5 100 1).2.2 + 1) := by
  exact ⟨rfl, by decide,
    (hostPort_externalDial_errors envC3 1000 100 5 0 0 rfl (by decide)).1 rfl⟩

/-- C9: for every positive poll interval and deadline (and positive exec
round-trip cost), `WaitUntilReady` against a live target whose success
condition never holds — every dial at best refused, every internal exec
returning a non-zero, non-126 exit code — terminates and returns a
deadline-derived (timeout) error at a virtual time in `[d, d + p)`. -/
theorem hostPort_timeoutBound (hp : HostPortStrategy) (env : HPEnv)
    (hp1 : 1 ≤ hp.PollInterval) (hd : 1 ≤ resolvedTimeout hp) (hce : 1 ≤ env.execCost)
    (hport : hp.Port ≠ "") (ha : ∃ a, env.hostRes = Except.ok a) (hck : env.checkErr = none)
    (hdial : ∀ k, env.dialRes k = DialOutcome.ok ∨
      env.dialRes k = DialOutcome.opSyscall Errno.connRefused)
    (hexec : ∀ k, ∃ c, env.execRes k = Except.ok c ∧ c ≠ 0 ∧ c ≠ 126) :
    ∃ e t s, waitUntilReady hp env = (Except.error e, t, s) ∧ isDeadlineErr e = true ∧
      resolvedTimeout hp ≤ t ∧ t < resolvedTimeout hp + hp.PollInterval := by
  obtain ⟨a, ha⟩ := ha
  have hres : resolveInternalPort hp env = Except.ok hp.Port := by
    unfold resolveInternalPort
    rw [if_neg hport]
  by_cases hm0 : env.mappedRes 0 = ""
  · rcases mappedLoop_spec env (resolvedTimeout hp) hp.PollInterval hck hp1
        (resolvedTimeout hp + 1) 0 1 (by omega) (by omega) with
      ⟨q, t1, s1, hq, heq, ht1⟩ | ⟨s1, heq⟩
    · rcases extLoop_spec env (resolvedTimeout hp) hp.PollInterval hck hp1 hdial
          (resolvedTimeout hp + 1) t1 0 (by omega) (by omega) with
        ⟨t2, s2, heq2, ht2⟩ | ⟨t2, s2, heq2, hd2, hlt2⟩
      · have heq3 := intLoop_timeout env (resolvedTimeout hp) env.execCost hck hce hexec
          (resolvedTimeout hp + 1) t2 0 ht2 (by omega)
        refine ⟨WErr.execWrapped WErr.ctxDeadline, resolvedTimeout hp, s1 + s2, ?_, rfl,
          le_refl _, by omega⟩
        simp [waitUntilReady, ha, hres, hm0, heq, heq2, heq3]
      · refine ⟨WErr.ctxDeadline, t2, s1 + s2, ?_, rfl, hd2, hlt2⟩
        simp [waitUntilReady, ha, hres, hm0, heq, heq2]
    · refine ⟨WErr.ctxWrapMapped, resolvedTimeout hp, s1, ?_, rfl, le_refl _, by omega⟩
      simp [waitUntilReady, ha, hres, hm0, heq]
  · rcases extLoop_spec env (resolvedTimeout hp) hp.PollInterval hck hp1 hdial
        (resolvedTimeout hp + 1) 0 0 (by omega) (by omega) with
      ⟨t2, s2, heq2, ht2⟩ | ⟨t2, s2, heq2, hd2, hlt2⟩
    · have heq3 := intLoop_timeout env (resolvedTimeout hp) env.execCost hck hce hexec
        (resolvedTimeout hp + 1) t2 0 ht2 (by omega)
      refine ⟨WErr.execWrapped WErr.ctxDeadline, resolvedTimeout hp, s2, ?_, rfl,
        le_refl _, by omega⟩
      simp [waitUntilReady, ha, hres, hm0, heq2, heq3]
    · refine ⟨WErr.ctxDeadline, t2, s2, ?_, rfl, hd2, hlt2⟩
      simp [waitUntilReady, ha, hres, hm0, heq2]

/-- C9 (witness): the timeout bound at a concrete never-ready target with
deadline 3 and poll interval 1. -/
theorem hostPort_timeoutBound_witness :
    1 ≤ hpC9.PollInterval ∧ 1 ≤ resolvedTimeout hpC9 ∧
    (∃ e t s, waitUntilReady hpC9 envC9 = (Except.error e, t, s) ∧ isDeadlineErr e = true ∧
      resolvedTimeout hpC9 ≤ t ∧ t < resolvedTimeout hpC9 + hpC9.PollInterval) := by
  exact ⟨by decide, by decide,
    hostPort_timeoutBound hpC9 envC9 (by decide) (by decide) (by decide) (by decide)
      ⟨"localhost", rfl⟩ rfl (fun k => Or.inr rfl) (fun k => ⟨1, rfl, by decide, by decide⟩)⟩

end HostPortWait

namespace Couchbase

/-- Appending a failing step after a succeeding prefix: the pipeline stops at
the failing step, surfaces its error unchanged, and never reaches the suffix. -/
theorem runPipeline_append_fail (env : CbEnv) (s : StepId) (post : List StepId) :
    ∀ (pre : List StepId) (cfg : Config) (e : CbErr),
      (runPipeline env pre cfg).1 = none →
      (runStep env s (runPipeline env pre cfg).2.1).1 = some e →
      runPipeline env (pre ++ s :: post) cfg =
        (some e, (runStep env s (runPipeline env pre cfg).2.1).2.1, pre ++ [s],
         (runPipeline env pre cfg).2.2.2 ++ (runStep env s (runPipeline env pre cfg).2.1).2.2) := by
  intro pre
  induction pre with
  | nil =>
    intro cfg e hpre hfail
    simp only [runPipeline, List.nil_append] at hfail ⊢
    simp [runPipeline, hfail]
  | cons a pre2 ih =>
    intro cfg e hpre hfail
    cases hstep : (runStep env a cfg).1 with
    | some e2 => simp [runPipeline, hstep] at hpre
    | none =>
      have hpre2 : (runPipeline env pre2 (runStep env a cfg).2.1).1 = none := by
        simpa [runPipeline, hstep] using hpre
      have hfail2 :
          (runStep env s (runPipeline env pre2 (runStep env a cfg).2.1).2.1).1 = some e := by
        simpa [runPipeline, hstep] using hfail
      have h := ih (runStep env a cfg).2.1 e hpre2 hfail2
      simp [runPipeline, hstep, h, List.append_assoc]

/-- No pipeline step ever issues a bucket-creation or primary-index request:
those belong exclusively to `createBuckets`. -/
theorem runStep_no_bucket_reqs (env : CbEnv) (s : StepId) (cfg : Config) (nm : String) :
    Req.createBucketReq nm ∉ (runStep env s cfg).2.2 ∧
    Req.primaryIndexReq nm ∉ (runStep env s cfg).2.2 := by
  cases s <;>
    simp only [runStep, waitUntilNodeIsOnline, initializeIsEnterprise, renameNode,
      initializeServices, setMemoryQuotas, configureAdminUser, configureExternalPorts,
      configureIndexer, waitUntilAllNodesAreHealthy] <;>
    (repeat' split) <;> simp

/-- The whole pipeline issues no bucket-creation or primary-index request. -/
theorem runPipeline_no_bucket_reqs (env : CbEnv) (nm : String) :
    ∀ (steps : List StepId) (cfg : Config),
      Req.createBucketReq nm ∉ (runPipeline env steps cfg).2.2.2 ∧
      Req.primaryIndexReq nm ∉ (runPipeline env steps cfg).2.2.2 := by
  intro steps
  induction steps with
  | nil => intro cfg; simp [runPipeline]
  | cons a rest ih =>
    intro cfg
    have h1 := runStep_no_bucket_reqs env a cfg nm
    cases hstep : (runStep env a cfg).1 with
    | some e =>
      simpa [runPipeline, hstep] using h1
    | none =>
      have h2 := ih (runStep env a cfg).2.1
      simp only [runPipeline, hstep]
      simp [List.mem_append, not_or]
      exact ⟨⟨h1.1, h2.1⟩, h1.2, h2.2⟩

/-- The request trace of one bucket iteration is either just its creation
request or its creation request followed by its primary-index request. -/
theorem runBucket_reqs (cfg : Config) (env : CbEnv) (b : Bucket) :
    (runBucket cfg env b).2 = [Req.createBucketReq b.name] ∨
    (runBucket cfg env b).2 = [Req.createBucketReq b.name, Req.primaryIndexReq b.name] := by
  cases h1 : createBucket env b with
  | some e => left; simp [runBucket, h1]
  | none =>
    cases h2 : env.bucketReadyRes b.name with
    | some e => left; simp [runBucket, h1, h2]
    | none =>
      cases h3 : (if contains cfg.enabledServices Service.query then env.keyspaceFinal b.name
          else none) with
      | some e => left; simp [runBucket, h1, h2, h3]
      | none =>
        cases h4 : b.queryPrimaryIndex with
        | false => left; simp [runBucket, h1, h2, h3, h4]
        | true =>
          cases h5 : contains cfg.enabledServices Service.query with
          | false => left; simp [runBucket, h1, h2, h3, h4, h5]
          | true =>
            have hks : env.keyspaceFinal b.name = none := by simpa [h5] using h3
            cases h6 : doHttp env QUERY_PORT (Req.primaryIndexReq b.name) with
            | error e => right; simp [runBucket, h1, h2, hks, h4, h5, h6]
            | ok v =>
              cases h7 : env.indexOnlineFinal b.name with
              | some e => right; simp [runBucket, h1, h2, hks, h4, h5, h6, h7]
              | none => right; simp [runBucket, h1, h2, hks, h4, h5, h6, h7]

/-- Without the query service, one bucket iteration issues exactly its
creation request, never a primary-index request. -/
theorem runBucket_reqs_noQuery (cfg : Config) (env : CbEnv) (b : Bucket)
    (hq : contains cfg.enabledServices Service.query = false) :
    (runBucket cfg env b).2 = [Req.createBucketReq b.name] := by
  cases h1 : createBucket env b with
  | some e => simp [runBucket, h1]
  | none =>
    cases h2 : env.bucketReadyRes b.name with
    | some e => simp [runBucket, h1, h2]
    | none =>
      cases h4 : b.queryPrimaryIndex with
      | false => simp [runBucket, h1, h2, h4, hq]
      | true => simp [runBucket, h1, h2, h4, hq]

/-- Every bucket-creation request in a `createBuckets` trace names one of the
processed buckets. -/
theorem createBuckets_reqNames (cfg : Config) (env : CbEnv) (nm : String) :
    ∀ bs : List Bucket, Req.createBucketReq nm ∈ (createBuckets cfg env bs).2 →
      nm ∈ bs.map Bucket.name := by
  intro bs
  induction bs with
  | nil => intro h; simp [createBuckets] at h
  | cons a rest ih =>
    intro h
    have hname : Req.createBucketReq nm ∈ (runBucket cfg env a).2 → nm = a.name := by
      rcases runBucket_reqs cfg env a with hr | hr <;> rw [hr] <;> intro hmem <;> simpa using hmem
    cases hra : (runBucket cfg env a).1 with
    | some e =>
      simp only [createBuckets, hra] at h
      simp [hname h]
    | none =>
      simp only [createBuckets, hra] at h
      rcases List.mem_append.mp h with h | h
      · simp [hname h]
      · simp [ih h]

/-- Without the query service, `createBuckets` never issues a primary-index
request. -/
theorem createBuckets_noIndexReq (cfg : Config) (env : CbEnv) (nm : String)
    (hq : contains cfg.enabledServices Service.query = false) :
    ∀ bs : List Bucket, Req.primaryIndexReq nm ∉ (createBuckets cfg env bs).2 := by
  intro bs
  induction bs with
  | nil => simp [createBuckets]
  | cons a rest ih =>
    have hr := runBucket_reqs_noQuery cfg env a hq
    cases hra : (runBucket cfg env a).1 with
    | some e => simp [createBuckets, hra, hr]
    | none => simp [createBuckets, hra, hr, ih]

/-- Appending a failing bucket after a succeeding prefix: `createBuckets`
stops at the failing bucket, surfaces its error unchanged, and never reaches
the suffix. -/
theorem createBuckets_append_fail (cfg : Config) (env : CbEnv) (b : Bucket) (post : List Bucket)
    (e : CbErr) (reqsB : List Req) (hfail : runBucket cfg env b = (some e, reqsB)) :
    ∀ pre : List Bucket, (createBuckets cfg env pre).1 = none →
      createBuckets cfg env (pre ++ b :: post) = (some e, (createBuckets cfg env pre).2 ++ reqsB) := by
  intro pre
  induction pre with
  | nil =>
    intro hpre
    simp [createBuckets, hfail]
  | cons a pre2 ih =>
    intro hpre
    cases hra : (runBucket cfg env a).1 with
    | some e2 => simp [createBuckets, hra] at hpre
    | none =>
      have hpre2 : (createBuckets cfg env pre2).1 = none := by
        simpa [createBuckets, hra] using hpre
      simp [createBuckets, hra, ih hpre2, List.append_assoc]

/-- A bucket whose creation succeeds but whose readiness probe fails aborts
its iteration with the probe's error, after only the creation request. -/
theorem runBucket_probe_fail (cfg : Config) (env : CbEnv) (b : Bucket) (e : CbErr)
    (hcreate : createBucket env b = none) (hprobe : env.bucketReadyRes b.name = some e) :
    runBucket cfg env b = (some e, [Req.createBucketReq b.name]) := by
  simp [runBucket, hcreate, hprobe]

/-- A bucket requiring a primary index without the query service aborts its
iteration with the configuration error, issuing no primary-index request. -/
theorem runBucket_pi_noQuery (cfg : Config) (env : CbEnv) (b : Bucket)
    (hq : contains cfg.enabledServices Service.query = false) (hpi : b.queryPrimaryIndex = true)
    (hcreate : createBucket env b = none) (hready : env.bucketReadyRes b.name = none) :
    runBucket cfg env b = (some (CbErr.primaryIndexIgnored b.name), [Req.createBucketReq b.name]) := by
  simp [runBucket, hcreate, hready, hq, hpi]

/-- A compound succeeds exactly when all of its sub-strategies succeed. -/
theorem forAll_none_iff (env : CbEnv) :
    ∀ l : List WStrategy, (forAll env l).1 = none ↔ ∀ s ∈ l, env.strategyRes s = none := by
  intro l
  induction l with
  | nil => simp [forAll]
  | cons s rest ih =>
    cases h : env.strategyRes s with
    | some e => simp [forAll, h]
    | none => simp [forAll, h, ih]

/-- The first failing sub-strategy aborts the compound with its error; the
suffix is never evaluated. -/
theorem forAll_split (env : CbEnv) :
    ∀ (pre : List WStrategy) (s : WStrategy) (post : List WStrategy) (e : CbErr),
      (∀ x ∈ pre, env.strategyRes x = none) → env.strategyRes s = some e →
      forAll env (pre ++ s :: post) = (some e, pre ++ [s]) := by
  intro pre
  induction pre with
  | nil =>
    intro s post e hpre hs
    simp [forAll, hs]
  | cons a pre2 ih =>
    intro s post e hpre hs
    have ha := hpre a (List.mem_cons_self a pre2)
    have hrest : ∀ x ∈ pre2, env.strategyRes x = none :=
      fun x hx => hpre x (List.mem_cons_of_mem a hx)
    simp [forAll, ha, ih s post e hrest hs]

/-- C4: when step `s` of the bootstrap pipeline fails after a succeeding
prefix `pre`, `StartContainer` aborts immediately: the steps after `s` are
never invoked (the invoked list is exactly `pre ++ [s]`), no bucket is
processed, and the returned error is the failing step's error unchanged. -/
theorem startContainer_firstFailure (cfg : Config) (env : CbEnv)
    (pre : List StepId) (s : StepId) (post : List StepId) (e : CbErr)
    (hc : env.containerErr = none)
    (hsteps : startContainerSteps cfg = pre ++ s :: post)
    (hpre : (runPipeline env pre cfg).1 = none)
    (hfail : (runStep env s (runPipeline env pre cfg).2.1).1 = some e) :
    startContainer cfg env =
      (some e, pre ++ [s],
       (runPipeline env pre cfg).2.2.2 ++ (runStep env s (runPipeline env pre cfg).2.1).2.2) := by
  have h := runPipeline_append_fail env s post pre cfg e hpre hfail
  simp [startContainer, hc, hsteps, h]

/-- C4 (witness): with the default configuration and a collaborator whose
rename-node request fails, the pipeline stops at the rename step with that
error. -/
theorem startContainer_firstFailure_witness :
    envC4.containerErr = none ∧
    startContainer cfgB envC4 =
      (some (CbErr.envErr 1),
       [StepId.waitUntilNodeIsOnline, StepId.initializeIsEnterprise, StepId.renameNode],
       [Req.getPools, Req.renameNode "172.17.0.2"]) := by
  refine ⟨rfl, ?_⟩
  exact startContainer_firstFailure cfgB envC4
    [StepId.waitUntilNodeIsOnline, StepId.initializeIsEnterprise] StepId.renameNode
    [StepId.initializeServices, StepId.setMemoryQuotas, StepId.configureAdminUser,
     StepId.configureExternalPorts, StepId.configureIndexer, StepId.waitUntilAllNodesAreHealthy]
    (CbErr.envErr 1) rfl rfl rfl rfl

/-- C5 (counterexample): a failing SSL-management mapped-port lookup in
`configureExternalPorts` is silently discarded — the step succeeds and the
body carries an empty `mgmtSSL` field — contradicting the claim that
host/mapped-port resolution failures of this step are propagated. -/
theorem configureExternalPorts_discard_cex :
    envC5.cbMapped MGMT_SSL_PORT = Except.error (CbErr.envErr 7) ∧
    (configureExternalPorts cfgB envC5).1 = none ∧
    (externalBody cfgB envC5)[2]? = some ("mgmtSSL", "") := by
  exact ⟨rfl, rfl, rfl⟩

/-- C5 (amended): errors bubble to the immediate caller except in
`configureExternalPorts`, whose body-building host and mapped-port resolution
failures are discarded (fields default to empty): the step succeeds whenever
the final alternate-addresses request succeeds — regardless of those lookup
failures — while a failure inside that final request (such as an unresolvable
host) is propagated. -/
theorem configureExternalPorts_amended (cfg : Config) (env : CbEnv)
    (hh : ∃ h, env.cbHost = Except.ok h) (hm : ∃ m, env.cbMapped MGMT_PORT = Except.ok m)
    (hput : ∀ body, env.reqOutcome (Req.setupAlternateAddresses body) = Except.ok true) :
    (configureExternalPorts cfg env).1 = none
    ∧ ∀ (env2 : CbEnv) (e : CbErr), env2.cbHost = Except.error e →
      (configureExternalPorts cfg env2).1 = some e := by
  constructor
  · obtain ⟨h, hh⟩ := hh
    obtain ⟨m, hm⟩ := hm
    simp [configureExternalPorts, doHttp, hh, hm, hput]
  · intro env2 e he
    simp [configureExternalPorts, doHttp, he]

/-- C5 (witness): the amended behaviour at the concrete discarding
environment. -/
theorem configureExternalPorts_amended_witness :
    envC5.cbMapped MGMT_PORT = Except.ok "32768" ∧
    (configureExternalPorts cfgB envC5).1 = none := by
  refine ⟨rfl, ?_⟩
  exact (configureExternalPorts_amended cfgB envC5 ⟨"localhost", rfl⟩ ⟨"32768", rfl⟩
    (fun body => rfl)).1

/-- C6: buckets are processed in configuration order, each creation followed
by its readiness probe before the next bucket; if bucket `b`'s probe fails
after a fully succeeding prefix, `StartContainer` returns the probe's error
and the buckets declared after `b` are never created. -/
theorem createBuckets_probeAborts (cfg cfg1 : Config) (env : CbEnv)
    (pre post : List Bucket) (b : Bucket) (e : CbErr)
    (hc : env.containerErr = none)
    (hpipe : (runPipeline env (startContainerSteps cfg) cfg).1 = none)
    (hcfg1 : (runPipeline env (startContainerSteps cfg) cfg).2.1 = cfg1)
    (hbuckets : cfg1.buckets = pre ++ b :: post)
    (hpre : (createBuckets cfg1 env pre).1 = none)
    (hcreate : createBucket env b = none)
    (hprobe : env.bucketReadyRes b.name = some e) :
    startContainer cfg env =
      (some e, (runPipeline env (startContainerSteps cfg) cfg).2.2.1,
       (runPipeline env (startContainerSteps cfg) cfg).2.2.2 ++
         ((createBuckets cfg1 env pre).2 ++ [Req.createBucketReq b.name]))
    ∧ ∀ b2, b2 ∈ post → b2.name ∉ pre.map Bucket.name → b2.name ≠ b.name →
      Req.createBucketReq b2.name ∉ (startContainer cfg env).2.2 := by
  have hrb := runBucket_probe_fail cfg1 env b e hcreate hprobe
  have hcb := createBuckets_append_fail cfg1 env b post e [Req.createBucketReq b.name] hrb pre hpre
  have hmain : startContainer cfg env =
      (some e, (runPipeline env (startContainerSteps cfg) cfg).2.2.1,
       (runPipeline env (startContainerSteps cfg) cfg).2.2.2 ++
         ((createBuckets cfg1 env pre).2 ++ [Req.createBucketReq b.name])) := by
    simp [startContainer, hc, hpipe, hcfg1, hbuckets, hcb]
  refine ⟨hmain, ?_⟩
  intro b2 hmem hnotpre hne
  have hpl := runPipeline_no_bucket_reqs env b2.name (startContainerSteps cfg) cfg
  rw [hmain]
  simp only [List.mem_append, not_or]
  refine ⟨hpl.1, ?_, ?_⟩
  · intro h
    exact hnotpre (createBuckets_reqNames cfg1 env b2.name pre h)
  · simp [hne]

/-- C6 (witness): bucket `b1`'s probe fails, `b2` is never created. -/
theorem createBuckets_probeAborts_witness :
    envC6.bucketReadyRes "b1" = some (CbErr.envErr 9) ∧
    startContainer cfgC6 envC6 =
      (some (CbErr.envErr 9), pipeC6.2.2.1, pipeC6.2.2.2 ++ [Req.createBucketReq "b1"]) ∧
    Req.createBucketReq "b2" ∉ (startContainer cfgC6 envC6).2.2 := by
  have h := createBuckets_probeAborts cfgC6 pipeC6.2.1 envC6 [] [b2C6] b1C6 (CbErr.envErr 9)
    rfl rfl rfl rfl rfl rfl rfl
  exact ⟨rfl, h.1, h.2 b2C6 (List.mem_singleton.mpr rfl) (by simp) (by decide)⟩

/-- C7: a configuration enabling analytics or eventing on a discovered
non-enterprise edition makes `StartContainer` return the fatal configuration
error right after edition discovery — before the rename-node step and all
later steps — and the rename-node request is never issued. -/
theorem enterpriseGate_beforeRename (cfg : Config) (env : CbEnv)
    (hc : env.containerErr = none) (hnode : env.nodeOnlineRes = none)
    (hpools : doHttp env MGMT_PORT Req.getPools = Except.ok false)
    (hsvc : contains cfg.enabledServices Service.analytics = true ∨
      contains cfg.enabledServices Service.eventing = true) :
    startContainer cfg env =
      (some (if contains cfg.enabledServices Service.analytics then CbErr.analyticsEnterprise
        else CbErr.eventingEnterprise),
       [StepId.waitUntilNodeIsOnline, StepId.initializeIsEnterprise], [Req.getPools])
    ∧ ∀ ip, Req.renameNode ip ∉ (startContainer cfg env).2.2 := by
  have hstep2 : initializeIsEnterprise cfg env =
      (some (if contains cfg.enabledServices Service.analytics then CbErr.analyticsEnterprise
        else CbErr.eventingEnterprise), { cfg with isEnterprise := false }, [Req.getPools]) := by
    cases hA : contains cfg.enabledServices Service.analytics with
    | true => simp [initializeIsEnterprise, hpools, hA]
    | false =>
      have hE : contains cfg.enabledServices Service.eventing = true := by
        rcases hsvc with h | h
        · rw [hA] at h
          exact absurd h (by decide)
        · exact h
      simp [initializeIsEnterprise, hpools, hA, hE]
  have hmain : startContainer cfg env =
      (some (if contains cfg.enabledServices Service.analytics then CbErr.analyticsEnterprise
        else CbErr.eventingEnterprise),
       [StepId.waitUntilNodeIsOnline, StepId.initializeIsEnterprise], [Req.getPools]) := by
    simp [startContainer, hc, startContainerSteps, runPipeline, runStep,
      waitUntilNodeIsOnline, hnode, hstep2]
  refine ⟨hmain, ?_⟩
  intro ip
  rw [hmain]
  simp

/-- C7 (witness): analytics enabled on a non-enterprise edition. -/
theorem enterpriseGate_beforeRename_witness :
    contains cfgC7.enabledServices Service.analytics = true ∧
    startContainer cfgC7 envC7 =
      (some CbErr.analyticsEnterprise,
       [StepId.waitUntilNodeIsOnline, StepId.initializeIsEnterprise], [Req.getPools]) := by
  refine ⟨rfl, ?_⟩
  exact (enterpriseGate_beforeRename cfgC7 envC7 rfl rfl rfl (Or.inl rfl)).1

/-- C8: a compound (`wait.ForAll`) succeeds exactly when every sub-strategy
succeeds; sub-strategies are evaluated sequentially in listed order and the
first failure aborts the compound with that sub-strategy's error, with the
later sub-strategies never evaluated — in particular for the
all-services-healthy compound built dynamically from the enabled services. -/
theorem compound_firstFailure (env : CbEnv) :
    (∀ l : List WStrategy, (forAll env l).1 = none ↔ ∀ s ∈ l, env.strategyRes s = none)
    ∧ (∀ (pre : List WStrategy) (s : WStrategy) (post : List WStrategy) (e : CbErr),
        (∀ x ∈ pre, env.strategyRes x = none) → env.strategyRes s = some e →
        forAll env (pre ++ s :: post) = (some e, pre ++ [s]))
    ∧ (∀ cfg : Config, (waitUntilAllNodesAreHealthy cfg env).1 = none ↔
        ∀ s ∈ healthStrategies cfg, env.strategyRes s = none) := by
  refine ⟨forAll_none_iff env, forAll_split env, ?_⟩
  intro cfg
  simpa [waitUntilAllNodesAreHealthy] using forAll_none_iff env (healthStrategies cfg)

/-- C8 (witness): the third sub-strategy fails; the fourth is not evaluated. -/
theorem compound_firstFailure_witness :
    envC8.strategyRes WStrategy.analyticsPing = some (CbErr.envErr 3) ∧
    forAll envC8
        [WStrategy.mgmtHealthy, WStrategy.queryPing, WStrategy.analyticsPing,
         WStrategy.eventingConfig] =
      (some (CbErr.envErr 3),
       [WStrategy.mgmtHealthy, WStrategy.queryPing, WStrategy.analyticsPing]) := by
  refine ⟨rfl, ?_⟩
  exact (compound_firstFailure envC8).2.1 [WStrategy.mgmtHealthy, WStrategy.queryPing]
    WStrategy.analyticsPing [WStrategy.eventingConfig] (CbErr.envErr 3) (by decide) rfl

/-- C10: a bucket requiring a primary index while the query service is not
enabled makes `StartContainer` return an error for that bucket instead of
silently skipping index creation, and no primary-index creation request is
ever issued. -/
theorem primaryIndex_requiresQuery (cfg cfg1 : Config) (env : CbEnv)
    (pre post : List Bucket) (b : Bucket)
    (hc : env.containerErr = none)
    (hpipe : (runPipeline env (startContainerSteps cfg) cfg).1 = none)
    (hcfg1 : (runPipeline env (startContainerSteps cfg) cfg).2.1 = cfg1)
    (hbuckets : cfg1.buckets = pre ++ b :: post)
    (hq : contains cfg1.enabledServices Service.query = false)
    (hpi : b.queryPrimaryIndex = true)
    (hpre : (createBuckets cfg1 env pre).1 = none)
    (hcreate : createBucket env b = none)
    (hready : env.bucketReadyRes b.name = none) :
    startContainer cfg env =
      (some (CbErr.primaryIndexIgnored b.name),
       (runPipeline env (startContainerSteps cfg) cfg).2.2.1,
       (runPipeline env (startContainerSteps cfg) cfg).2.2.2 ++
         ((createBuckets cfg1 env pre).2 ++ [Req.createBucketReq b.name]))
    ∧ ∀ nm, Req.primaryIndexReq nm ∉ (startContainer cfg env).2.2 := by
  have hrb := runBucket_pi_noQuery cfg1 env b hq hpi hcreate hready
  have hcb := createBuckets_append_fail cfg1 env b post (CbErr.primaryIndexIgnored b.name)
    [Req.createBucketReq b.name] hrb pre hpre
  have hmain : startContainer cfg env =
      (some (CbErr.primaryIndexIgnored b.name),
       (runPipeline env (startContainerSteps cfg) cfg).2.2.1,
       (runPipeline env (startContainerSteps cfg) cfg).2.2.2 ++
         ((createBuckets cfg1 env pre).2 ++ [Req.createBucketReq b.name])) := by
    simp [startContainer, hc, hpipe, hcfg1, hbuckets, hcb]
  refine ⟨hmain, ?_⟩
  intro nm
  have hpl := runPipeline_no_bucket_reqs env nm (startContainerSteps cfg) cfg
  rw [hmain]
  simp only [List.mem_append, not_or]
  exact ⟨hpl.2, createBuckets_noIndexReq cfg1 env nm hq pre, by simp⟩

/-- C10 (witness): the bucket requiring a primary index without the query
service aborts the bootstrap with the configuration error. -/
theorem primaryIndex_requiresQuery_witness :
    contains cfgC10.enabledServices Service.query = false ∧
    startContainer cfgC10 envB =
      (some (CbErr.primaryIndexIgnored "b1"), pipeC10.2.2.1,
       pipeC10.2.2.2 ++ [Req.createBucketReq "b1"]) := by
  refine ⟨rfl, ?_⟩
  exact (primaryIndex_requiresQuery cfgC10 pipeC10.2.1 envB [] [] bPIC10
    rfl rfl rfl rfl rfl rfl rfl rfl rfl).1

end Couchbase

